import Mathlib

/-!
Verification of the SEIR bubble-chart simulator (`SEIR_Model/working_bubble.py`)
and the sequential-reaction kinetics demo
(`reaction_kinetics/sliders_reaction_kinetics.py`).

Real arithmetic is embedded as exact rational arithmetic (`ℚ`); the Python
decimal literals are the corresponding rationals.  Code that can raise at
runtime is embedded as `Option`-valued: `health_cap_effect` reads the local
names `hcd`/`hcr` that are only assigned inside the two strict-inequality
branches, so a call with `Is_h == health_capacity` raises `UnboundLocalError`;
this is modelled by `none`, and the failure propagates to `deriv`.
-/

namespace WorkingBubble

/-- Total starting population (line 89). -/
def N : ℚ := 1000

/-- Initial symptomatic non-hospitalized infected (line 91). -/
def Is_nh0 : ℚ := 1

/-- Initial symptomatic hospitalized infected (line 92). -/
def Is_h0 : ℚ := 0

/-- Initial unknown asymptomatic infected (line 93). -/
def Ia_uk0 : ℚ := 1

/-- Initial known asymptomatic infected (line 94). -/
def Ia_k0 : ℚ := 0

/-- Initial recovered (line 95). -/
def R0 : ℚ := 0

/-- Initial dead (line 96). -/
def D0 : ℚ := 0

/-- Initial exposed (line 97). -/
def E0 : ℚ := 0

/-- Initial susceptible: everyone else (line 99). -/
def S0 : ℚ := N - Is_nh0 - Is_h0 - Ia_uk0 - Ia_k0 - R0 - D0 - E0

/-- Contact/infection rate for hospitalized symptomatic infecteds (line 101). -/
def beta_S_h : ℚ := 1/1000

/-- Contact/infection rate for non-hospitalized symptomatic infecteds (line 102). -/
def beta_S_nh : ℚ := 1/10

/-- Contact/infection rate for unknown asymptomatic infecteds (line 103). -/
def beta_A_uk : ℚ := 35/100

/-- Contact/infection rate for known asymptomatic infecteds (line 104). -/
def beta_A_k : ℚ := 1/10

/-- Recovery rate per day (line 105). -/
def gamma : ℚ := 4/100

/-- Recovery rate for hospitalized (line 106). -/
def gamma_hosp : ℚ := 1/25

/-- Death rate for symptomatic infecteds (line 107). -/
def death_rate_S : ℚ := 4/1000

/-- Death rate for hospitalized (line 108). -/
def death_rate_hosp : ℚ := 8/1000

/-- Natural death rate (line 109). -/
def nat_death : ℚ := 2/10000

/-- Natural birth rate (line 110). -/
def nat_birth : ℚ := 1/1000

/-- Rate at which exposed become symptomatic infected (line 111). -/
def E_to_I_forS : ℚ := 1/2

/-- Rate at which exposed become asymptomatic infected (line 112). -/
def E_to_I_forA : ℚ := 1/10

/-- Rate at which recovered become susceptible again (line 113). -/
def return_rate : ℚ := 2/100000

/-- Social-distancing factor (line 114). -/
def sd : ℚ := 1

/-- Vaccine effectiveness (line 116). -/
def v_eff : ℚ := 98/100

/-- Growth factor of the testing rate (line 117). -/
def test_rate_inc : ℚ := 1

/-- Hospitalization rate (line 118). -/
def hosp : ℚ := 1/10

/-- Health-system capacity threshold (line 119). -/
def health_capacity : ℚ := 150

/-- Day at which the vaccine is introduced (line 124). -/
def t_vac : ℚ := 200

/-- Vaccination rate (lines 126-132): `vac_f` starts at 0, is set to 0 when
`total_time < t_vac` and to 0.01 when `total_time >= t_vac`. -/
def vac_freq (t_vac total_time : ℚ) : ℚ :=
  if total_time < t_vac then 0
  else if t_vac ≤ total_time then 1/100
  else 0

/-- Health-capacity effect (lines 134-142): `[hcd, hcr]` is `[1, 1]` when
`Is_h < health_capacity` and `[1.5, 0.7]` when `Is_h > health_capacity`.
When `Is_h == health_capacity` neither branch assigns the function-local
names `hcd`/`hcr`, so the final read raises `UnboundLocalError`; that
failure is modelled by `none`. -/
def health_cap_effect (health_capacity Is_h : ℚ) : Option (ℚ × ℚ) :=
  if Is_h < health_capacity then some (1, 1)
  else if health_capacity < Is_h then some (3/2, 7/10)
  else none

/-- The 8-compartment state vector `S, E, Ia_uk, Ia_k, Is_nh, Is_h, R, D`
(line 147). -/
structure State where
  S : ℚ
  E : ℚ
  Ia_uk : ℚ
  Ia_k : ℚ
  Is_nh : ℚ
  Is_h : ℚ
  R : ℚ
  D : ℚ
deriving DecidableEq

/-- The eight flow equations of `deriv` (lines 151-158), as a function of the
pair `hce` produced by `health_cap_effect`.  The names `nat_birth`, `v_eff`
and `hosp` are the module-level constants (they are not parameters of the
Python function); `v_freq` and `test_rate` are the local bindings of
lines 148-149. -/
def deriv_body (t : ℚ) (y : State)
    (N beta_A_uk beta_A_k beta_S_nh beta_S_h gamma gamma_hosp nat_death
     death_rate_S death_rate_hosp E_to_I_forA E_to_I_forS return_rate sd
     test_rate_inc t_vac : ℚ) (hce : ℚ × ℚ) : State :=
  let S := y.S
  let E := y.E
  let Ia_uk := y.Ia_uk
  let Ia_k := y.Ia_k
  let Is_nh := y.Is_nh
  let Is_h := y.Is_h
  let R := y.R
  let D := y.D
  let v_freq := vac_freq t_vac t
  let test_rate := 1/1000 * t * test_rate_inc
  { S := (-beta_S_nh * sd * S * Is_nh / N) - (beta_S_h * S * Is_h / N)
        - (beta_A_uk * sd * S * Ia_uk / N) - (beta_A_k * sd * S * Ia_k / N)
        - (nat_death * S) + (nat_birth * (N - D)) + (return_rate * R)
        - (v_freq * v_eff * S)
    E := (beta_S_nh * sd * S * Is_nh / N) + (beta_S_h * S * Is_h / N)
        + (beta_A_uk * sd * S * Ia_uk / N) + (beta_A_k * sd * S * Ia_k / N)
        - (E_to_I_forA * E) - (E_to_I_forS * E) - (nat_death * E)
    Ia_uk := (E_to_I_forA * E) - (nat_death * Ia_uk) - (gamma * Ia_uk)
        - (test_rate * Ia_uk)
    Ia_k := (test_rate * Ia_uk) - (nat_death * Ia_k) - (gamma * Ia_k)
    Is_nh := (E_to_I_forS * E) - (nat_death * Is_nh) - (death_rate_S * Is_nh)
        - (gamma * Is_nh) - (hosp * Is_nh)
    Is_h := (hosp * Is_nh) - (hce.1 * nat_death * Is_h)
        - (hce.2 * death_rate_hosp * Is_h) - (gamma_hosp * Is_h)
    R := (gamma * (Ia_uk + Ia_k + Is_nh)) + (gamma_hosp * Is_h)
        - (nat_death * R) - (return_rate * R) + (v_freq * v_eff * S)
    D := nat_death * (S + E + Ia_uk + Ia_k + Is_nh + Is_h + R)
        + (death_rate_S * Is_nh) + (death_rate_hosp * Is_h) }

/-- The SEIR derivative function (lines 146-159).  It first evaluates
`health_cap_effect` (line 150); when that raises (at
`Is_h == health_capacity`) the whole call fails, otherwise the eight
derivatives are returned in state order. -/
def deriv (t : ℚ) (y : State)
    (N beta_A_uk beta_A_k beta_S_nh beta_S_h gamma gamma_hosp nat_death
     death_rate_S death_rate_hosp E_to_I_forA E_to_I_forS return_rate sd
     test_rate_inc t_vac health_capacity : ℚ) : Option State :=
  (health_cap_effect health_capacity y.Is_h).map
    (deriv_body t y N beta_A_uk beta_A_k beta_S_nh beta_S_h gamma gamma_hosp
      nat_death death_rate_S death_rate_hosp E_to_I_forA E_to_I_forS
      return_rate sd test_rate_inc t_vac)

/-- Initial conditions vector (line 162). -/
def y0 : State :=
  { S := S0, E := E0, Ia_uk := Ia_uk0, Ia_k := Ia_k0, Is_nh := Is_nh0,
    Is_h := Is_h0, R := R0, D := D0 }

lemma deriv_of_lt {t : ℚ} {y : State}
    {n bAuk bAk bSnh bSh g gh nd drS drh eia eis rr s tri tv cap : ℚ}
    (h : y.Is_h < cap) :
    deriv t y n bAuk bAk bSnh bSh g gh nd drS drh eia eis rr s tri tv cap =
      some (deriv_body t y n bAuk bAk bSnh bSh g gh nd drS drh eia eis rr s
        tri tv (1, 1)) := by
  simp [deriv, health_cap_effect, h]

lemma deriv_of_gt {t : ℚ} {y : State}
    {n bAuk bAk bSnh bSh g gh nd drS drh eia eis rr s tri tv cap : ℚ}
    (h : cap < y.Is_h) :
    deriv t y n bAuk bAk bSnh bSh g gh nd drS drh eia eis rr s tri tv cap =
      some (deriv_body t y n bAuk bAk bSnh bSh g gh nd drS drh eia eis rr s
        tri tv (3/2, 7/10)) := by
  have h1 : ¬ y.Is_h < cap := not_lt.mpr h.le
  simp [deriv, health_cap_effect, h1, h]

lemma deriv_of_eq {t : ℚ} {y : State}
    {n bAuk bAk bSnh bSh g gh nd drS drh eia eis rr s tri tv cap : ℚ}
    (h : y.Is_h = cap) :
    deriv t y n bAuk bAk bSnh bSh g gh nd drS drh eia eis rr s tri tv cap =
      none := by
  simp [deriv, health_cap_effect, h]

/-- Claim C2: for `Is_h` strictly below `health_capacity`,
`health_cap_effect` returns the pair `[1, 1]`; strictly above it returns the
degraded pair `[1.5, 0.7]`; the case `Is_h == health_capacity` is handled by
neither branch (the call fails). -/
theorem health_cap_effect_cases (cap ish : ℚ) :
    (ish < cap → health_cap_effect cap ish = some (1, 1)) ∧
    (cap < ish → health_cap_effect cap ish = some (3/2, 7/10)) ∧
    (ish = cap → health_cap_effect cap ish = none) := by
  refine ⟨fun h => ?_, fun h => ?_, fun h => ?_⟩
  · simp [health_cap_effect, h]
  · have h1 : ¬ ish < cap := not_lt.mpr h.le
    simp [health_cap_effect, h1, h]
  · simp [health_cap_effect, h]

/-- Witness for C2 at the reference capacity 150. -/
theorem health_cap_effect_cases_witness :
    health_cap_effect 150 100 = some (1, 1) ∧
    health_cap_effect 150 200 = some (3/2, 7/10) ∧
    health_cap_effect 150 150 = none :=
  ⟨(health_cap_effect_cases 150 100).1 (by norm_num),
   (health_cap_effect_cases 150 200).2.1 (by norm_num),
   (health_cap_effect_cases 150 150).2.2 rfl⟩

/-- Claim C3: the vaccination rate is 0 for every time strictly before
`t_vac` and the constant 0.01 for every time at or after `t_vac` — a step
function. -/
theorem vac_freq_step (tv time : ℚ) :
    (time < tv → vac_freq tv time = 0) ∧
    (tv ≤ time → vac_freq tv time = 1/100) := by
  refine ⟨fun h => ?_, fun h => ?_⟩
  · simp [vac_freq, h]
  · have h1 : ¬ time < tv := not_lt.mpr h
    simp [vac_freq, h1, h]

/-- Witness for C3 at the reference introduction day 200, testing the
boundary days 199 and 200. -/
theorem vac_freq_step_witness :
    vac_freq 200 199 = 0 ∧ vac_freq 200 200 = 1/100 ∧ vac_freq 200 201 = 1/100 :=
  ⟨(vac_freq_step 200 199).1 (by norm_num),
   (vac_freq_step 200 200).2 (by norm_num),
   (vac_freq_step 200 201).2 (by norm_num)⟩

/-- Claim C1, counterexample: with the reference parameters, `deriv` fails
(raises `UnboundLocalError` inside `health_cap_effect`) at a well-formed
non-negative state whose `Is_h` equals `health_capacity` (150). -/
theorem deriv_fails_at_capacity :
    deriv 0 ⟨0, 0, 0, 0, 0, 150, 0, 0⟩ N beta_A_uk beta_A_k beta_S_nh
      beta_S_h gamma gamma_hosp nat_death death_rate_S death_rate_hosp
      E_to_I_forA E_to_I_forS return_rate sd test_rate_inc t_vac
      health_capacity = none :=
  deriv_of_eq (by norm_num [health_capacity])

/-- Claim C1, amended: for every input whose `Is_h` component differs from
the capacity threshold, `deriv` returns a tuple of 8 (finite, rational)
values without failing; the failing branch is exactly
`Is_h == health_capacity`. -/
theorem deriv_total_off_capacity (t : ℚ) (y : State)
    (n bAuk bAk bSnh bSh g gh nd drS drh eia eis rr s tri tv cap : ℚ)
    (h : y.Is_h ≠ cap) :
    (deriv t y n bAuk bAk bSnh bSh g gh nd drS drh eia eis rr s tri tv
      cap).isSome = true := by
  rcases lt_trichotomy y.Is_h cap with hlt | heq | hgt
  · rw [deriv_of_lt hlt]; rfl
  · exact absurd heq h
  · rw [deriv_of_gt hgt]; rfl

/-- Witness for the amended C1 at the reference initial state and
parameters. -/
theorem deriv_total_off_capacity_witness :
    (deriv 0 y0 N beta_A_uk beta_A_k beta_S_nh beta_S_h gamma gamma_hosp
      nat_death death_rate_S death_rate_hosp E_to_I_forA E_to_I_forS
      return_rate sd test_rate_inc t_vac health_capacity).isSome = true :=
  deriv_total_off_capacity 0 y0 N beta_A_uk beta_A_k beta_S_nh beta_S_h
    gamma gamma_hosp nat_death death_rate_S death_rate_hosp E_to_I_forA
    E_to_I_forS return_rate sd test_rate_inc t_vac health_capacity
    (by norm_num [y0, Is_h0, health_capacity])

/-- Claim C4, counterexample: in the code's reference scenario the
unknown-asymptomatic compartment starts at 1, not 0, so the scenario is not
"Is_nh0=1 and all other infected/recovered/dead compartments 0". -/
theorem ref_scenario_Ia_uk0_cex : Ia_uk0 = 1 ∧ ¬ Ia_uk0 = 0 := by
  norm_num [Ia_uk0]

/-- Claim C4, amended: in the reference scenario (N=1000, Is_nh0=1,
Ia_uk0=1, and the remaining five compartments 0), S0 is computed as N minus
the sum of the seven other initial compartments, and the initial state
vector sums to exactly N. -/
theorem y0_sum_eq_N :
    N = 1000 ∧ Is_nh0 = 1 ∧ Ia_uk0 = 1 ∧ Is_h0 = 0 ∧ Ia_k0 = 0 ∧ R0 = 0 ∧
    D0 = 0 ∧ E0 = 0 ∧
    S0 = N - (Is_nh0 + Is_h0 + Ia_uk0 + Ia_k0 + R0 + D0 + E0) ∧
    y0.S + y0.E + y0.Ia_uk + y0.Ia_k + y0.Is_nh + y0.Is_h + y0.R + y0.D = N := by
  norm_num [N, Is_nh0, Ia_uk0, Is_h0, Ia_k0, R0, D0, E0, S0, y0]

/-- Claim C5, counterexample: with all four contact rates set to 0 and the
other reference parameters, the state with E = 1 and all other compartments
0 is non-negative, yet the unknown-asymptomatic derivative returned by
`deriv` is 1/10 > 0 (exposed individuals still convert to infected), so the
infected compartments are not all non-increasing. -/
theorem no_transmission_infected_cex :
    (deriv 0 ⟨0, 1, 0, 0, 0, 0, 0, 0⟩ N 0 0 0 0 gamma gamma_hosp nat_death
      death_rate_S death_rate_hosp E_to_I_forA E_to_I_forS return_rate sd
      test_rate_inc t_vac health_capacity).map State.Ia_uk = some (1/10) ∧
    ¬ ((1 : ℚ)/10 ≤ 0) := by
  constructor
  · rw [deriv_of_lt (by norm_num [health_capacity])]
    norm_num [deriv_body, vac_freq, t_vac, E_to_I_forA, nat_death, gamma,
      test_rate_inc]
  · norm_num

/-- Claim C5, amended: with all four contact rates 0 and the other reference
parameters, for every non-negative state at which `deriv` is defined, the
Exposed derivative is non-positive and the sum of the Exposed and the four
Infected derivatives is non-positive: the total exposed-plus-infected
population is non-increasing, though an individual infected compartment can
transiently grow from upstream inflow. -/
theorem no_transmission_decrease (t : ℚ) (y : State) (d : State)
    (hE : 0 ≤ y.E) (hIuk : 0 ≤ y.Ia_uk) (hIk : 0 ≤ y.Ia_k)
    (hInh : 0 ≤ y.Is_nh) (hIsh : 0 ≤ y.Is_h)
    (hd : deriv t y N 0 0 0 0 gamma gamma_hosp nat_death death_rate_S
      death_rate_hosp E_to_I_forA E_to_I_forS return_rate sd test_rate_inc
      t_vac health_capacity = some d) :
    d.E ≤ 0 ∧ d.E + d.Ia_uk + d.Ia_k + d.Is_nh + d.Is_h ≤ 0 := by
  rcases lt_trichotomy y.Is_h health_capacity with hlt | heq | hgt
  · rw [deriv_of_lt hlt] at hd
    obtain rfl := (Option.some.inj hd).symm
    constructor
    · simp only [deriv_body]
      norm_num [E_to_I_forA, E_to_I_forS, nat_death]
      nlinarith
    · simp only [deriv_body]
      norm_num [E_to_I_forA, E_to_I_forS, nat_death, gamma, gamma_hosp,
        death_rate_S, death_rate_hosp, hosp, test_rate_inc]
      nlinarith
  · rw [deriv_of_eq heq] at hd; cases hd
  · rw [deriv_of_gt hgt] at hd
    obtain rfl := (Option.some.inj hd).symm
    constructor
    · simp only [deriv_body]
      norm_num [E_to_I_forA, E_to_I_forS, nat_death]
      nlinarith
    · simp only [deriv_body]
      norm_num [E_to_I_forA, E_to_I_forS, nat_death, gamma, gamma_hosp,
        death_rate_S, death_rate_hosp, hosp, test_rate_inc]
      nlinarith

/-- Witness for the amended C5 at the all-zero state. -/
theorem no_transmission_decrease_witness :
    ((deriv_body 0 ⟨0, 0, 0, 0, 0, 0, 0, 0⟩ N 0 0 0 0 gamma gamma_hosp
        nat_death death_rate_S death_rate_hosp E_to_I_forA E_to_I_forS
        return_rate sd test_rate_inc t_vac (1, 1)).E ≤ 0) ∧
    ((deriv_body 0 ⟨0, 0, 0, 0, 0, 0, 0, 0⟩ N 0 0 0 0 gamma gamma_hosp
        nat_death death_rate_S death_rate_hosp E_to_I_forA E_to_I_forS
        return_rate sd test_rate_inc t_vac (1, 1)).E +
      (deriv_body 0 ⟨0, 0, 0, 0, 0, 0, 0, 0⟩ N 0 0 0 0 gamma gamma_hosp
        nat_death death_rate_S death_rate_hosp E_to_I_forA E_to_I_forS
        return_rate sd test_rate_inc t_vac (1, 1)).Ia_uk +
      (deriv_body 0 ⟨0, 0, 0, 0, 0, 0, 0, 0⟩ N 0 0 0 0 gamma gamma_hosp
        nat_death death_rate_S death_rate_hosp E_to_I_forA E_to_I_forS
        return_rate sd test_rate_inc t_vac (1, 1)).Ia_k +
      (deriv_body 0 ⟨0, 0, 0, 0, 0, 0, 0, 0⟩ N 0 0 0 0 gamma gamma_hosp
        nat_death death_rate_S death_rate_hosp E_to_I_forA E_to_I_forS
        return_rate sd test_rate_inc t_vac (1, 1)).Is_nh +
      (deriv_body 0 ⟨0, 0, 0, 0, 0, 0, 0, 0⟩ N 0 0 0 0 gamma gamma_hosp
        nat_death death_rate_S death_rate_hosp E_to_I_forA E_to_I_forS
        return_rate sd test_rate_inc t_vac (1, 1)).Is_h ≤ 0) :=
  no_transmission_decrease 0 ⟨0, 0, 0, 0, 0, 0, 0, 0⟩ _ le_rfl le_rfl le_rfl
    le_rfl le_rfl (deriv_of_lt (by norm_num [health_capacity]))

/-- Claim C6: for every non-negative state and non-negative time, whenever
`deriv` (with the reference rate parameters) returns a derivative tuple, its
Dead component is non-negative, so the Dead count is non-decreasing along
any trajectory. -/
theorem deriv_dead_nonneg (t : ℚ) (y : State) (d : State) (ht : 0 ≤ t)
    (hS : 0 ≤ y.S) (hE : 0 ≤ y.E) (hIuk : 0 ≤ y.Ia_uk) (hIk : 0 ≤ y.Ia_k)
    (hInh : 0 ≤ y.Is_nh) (hIsh : 0 ≤ y.Is_h) (hR : 0 ≤ y.R) (hD : 0 ≤ y.D)
    (hd : deriv t y N beta_A_uk beta_A_k beta_S_nh beta_S_h gamma gamma_hosp
      nat_death death_rate_S death_rate_hosp E_to_I_forA E_to_I_forS
      return_rate sd test_rate_inc t_vac health_capacity = some d) :
    0 ≤ d.D := by
  rcases lt_trichotomy y.Is_h health_capacity with hlt | heq | hgt
  · rw [deriv_of_lt hlt] at hd
    obtain rfl := (Option.some.inj hd).symm
    simp only [deriv_body]
    norm_num [nat_death, death_rate_S, death_rate_hosp]
    nlinarith
  · rw [deriv_of_eq heq] at hd; cases hd
  · rw [deriv_of_gt hgt] at hd
    obtain rfl := (Option.some.inj hd).symm
    simp only [deriv_body]
    norm_num [nat_death, death_rate_S, death_rate_hosp]
    nlinarith

/-- Witness for C6 at the reference initial state and t = 0. -/
theorem deriv_dead_nonneg_witness :
    (0 : ℚ) ≤ (deriv_body 0 y0 N beta_A_uk beta_A_k beta_S_nh beta_S_h gamma
      gamma_hosp nat_death death_rate_S death_rate_hosp E_to_I_forA
      E_to_I_forS return_rate sd test_rate_inc t_vac (1, 1)).D :=
  deriv_dead_nonneg 0 y0 _ le_rfl (by norm_num [y0, S0, N, Is_nh0, Is_h0,
      Ia_uk0, Ia_k0, R0, D0, E0])
    (by norm_num [y0, E0]) (by norm_num [y0, Ia_uk0]) (by norm_num [y0, Ia_k0])
    (by norm_num [y0, Is_nh0]) (by norm_num [y0, Is_h0]) (by norm_num [y0, R0])
    (by norm_num [y0, D0])
    (deriv_of_lt (by norm_num [y0, Is_h0, health_capacity]))

/-- Claim C7: for every time and state at which `deriv` (with arbitrary
parameter values) returns, the testing rate it uses is exactly
`0.001 * t * test_rate_inc`: the known-asymptomatic derivative equals that
linear, unbounded rate times `Ia_uk`, minus the natural-death and recovery
outflows. -/
theorem deriv_testing_rate (t : ℚ) (y : State) (d : State)
    (n bAuk bAk bSnh bSh g gh nd drS drh eia eis rr s tri tv cap : ℚ)
    (hd : deriv t y n bAuk bAk bSnh bSh g gh nd drS drh eia eis rr s tri tv
      cap = some d) :
    d.Ia_k = (1/1000 * t * tri) * y.Ia_uk - nd * y.Ia_k - g * y.Ia_k := by
  rcases lt_trichotomy y.Is_h cap with hlt | heq | hgt
  · rw [deriv_of_lt hlt] at hd
    obtain rfl := (Option.some.inj hd).symm
    simp only [deriv_body]
  · rw [deriv_of_eq heq] at hd; cases hd
  · rw [deriv_of_gt hgt] at hd
    obtain rfl := (Option.some.inj hd).symm
    simp only [deriv_body]

/-- Witness for C7 at t = 1 with unit testing growth and a unit `Ia_uk`. -/
theorem deriv_testing_rate_witness :
    (deriv_body 1 ⟨0, 0, 1, 0, 0, 0, 0, 0⟩ 1 0 0 0 0 0 0 0 0 0 0 0 0 0 1 0
      (1, 1)).Ia_k = (1/1000 * 1 * 1) * 1 - 0 * 0 - 0 * 0 :=
  deriv_testing_rate 1 ⟨0, 0, 1, 0, 0, 0, 0, 0⟩ _ 1 0 0 0 0 0 0 0 0 0 0 0 0 0
    1 0 150 (deriv_of_lt (by norm_num))

/-- Claim C9: for every non-negative state with `Is_h` strictly below the
capacity threshold, the componentwise sum of the eight derivatives returned
by `deriv` equals `nat_birth * (N - D)` (for arbitrary values of the
parameters `deriv` receives), and that sum is zero exactly when the
population argument equals the Dead compartment. -/
theorem deriv_sum_below_capacity (t : ℚ) (y : State) (d : State)
    (n bAuk bAk bSnh bSh g gh nd drS drh eia eis rr s tri tv cap : ℚ)
    (hS : 0 ≤ y.S) (hE : 0 ≤ y.E) (hIuk : 0 ≤ y.Ia_uk) (hIk : 0 ≤ y.Ia_k)
    (hInh : 0 ≤ y.Is_nh) (hIsh : 0 ≤ y.Is_h) (hR : 0 ≤ y.R) (hD : 0 ≤ y.D)
    (hcap : y.Is_h < cap)
    (hd : deriv t y n bAuk bAk bSnh bSh g gh nd drS drh eia eis rr s tri tv
      cap = some d) :
    d.S + d.E + d.Ia_uk + d.Ia_k + d.Is_nh + d.Is_h + d.R + d.D =
      nat_birth * (n - y.D) ∧
    (d.S + d.E + d.Ia_uk + d.Ia_k + d.Is_nh + d.Is_h + d.R + d.D = 0 ↔
      n = y.D) := by
  rw [deriv_of_lt hcap] at hd
  obtain rfl := (Option.some.inj hd).symm
  have hsum : (deriv_body t y n bAuk bAk bSnh bSh g gh nd drS drh eia eis rr
      s tri tv (1, 1)).S +
      (deriv_body t y n bAuk bAk bSnh bSh g gh nd drS drh eia eis rr s tri tv
        (1, 1)).E +
      (deriv_body t y n bAuk bAk bSnh bSh g gh nd drS drh eia eis rr s tri tv
        (1, 1)).Ia_uk +
      (deriv_body t y n bAuk bAk bSnh bSh g gh nd drS drh eia eis rr s tri tv
        (1, 1)).Ia_k +
      (deriv_body t y n bAuk bAk bSnh bSh g gh nd drS drh eia eis rr s tri tv
        (1, 1)).Is_nh +
      (deriv_body t y n bAuk bAk bSnh bSh g gh nd drS drh eia eis rr s tri tv
        (1, 1)).Is_h +
      (deriv_body t y n bAuk bAk bSnh bSh g gh nd drS drh eia eis rr s tri tv
        (1, 1)).R +
      (deriv_body t y n bAuk bAk bSnh bSh g gh nd drS drh eia eis rr s tri tv
        (1, 1)).D = nat_birth * (n - y.D) := by
    simp only [deriv_body]
    ring
  refine ⟨hsum, ?_⟩
  rw [hsum]
  norm_num [nat_birth]
  constructor
  · intro h; linarith
  · intro h; linarith

/-- Witness for C9 at the all-zero state with the reference parameters. -/
theorem deriv_sum_below_capacity_witness :
    ((deriv_body 0 ⟨0, 0, 0, 0, 0, 0, 0, 0⟩ N beta_A_uk beta_A_k beta_S_nh
        beta_S_h gamma gamma_hosp nat_death death_rate_S death_rate_hosp
        E_to_I_forA E_to_I_forS return_rate sd test_rate_inc t_vac
        (1, 1)).S +
      (deriv_body 0 ⟨0, 0, 0, 0, 0, 0, 0, 0⟩ N beta_A_uk beta_A_k beta_S_nh
        beta_S_h gamma gamma_hosp nat_death death_rate_S death_rate_hosp
        E_to_I_forA E_to_I_forS return_rate sd test_rate_inc t_vac
        (1, 1)).E +
      (deriv_body 0 ⟨0, 0, 0, 0, 0, 0, 0, 0⟩ N beta_A_uk beta_A_k beta_S_nh
        beta_S_h gamma gamma_hosp nat_death death_rate_S death_rate_hosp
        E_to_I_forA E_to_I_forS return_rate sd test_rate_inc t_vac
        (1, 1)).Ia_uk +
      (deriv_body 0 ⟨0, 0, 0, 0, 0, 0, 0, 0⟩ N beta_A_uk beta_A_k beta_S_nh
        beta_S_h gamma gamma_hosp nat_death death_rate_S death_rate_hosp
        E_to_I_forA E_to_I_forS return_rate sd test_rate_inc t_vac
        (1, 1)).Ia_k +
      (deriv_body 0 ⟨0, 0, 0, 0, 0, 0, 0, 0⟩ N beta_A_uk beta_A_k beta_S_nh
        beta_S_h gamma gamma_hosp nat_death death_rate_S death_rate_hosp
        E_to_I_forA E_to_I_forS return_rate sd test_rate_inc t_vac
        (1, 1)).Is_nh +
      (deriv_body 0 ⟨0, 0, 0, 0, 0, 0, 0, 0⟩ N beta_A_uk beta_A_k beta_S_nh
        beta_S_h gamma gamma_hosp nat_death death_rate_S death_rate_hosp
        E_to_I_forA E_to_I_forS return_rate sd test_rate_inc t_vac
        (1, 1)).Is_h +
      (deriv_body 0 ⟨0, 0, 0, 0, 0, 0, 0, 0⟩ N beta_A_uk beta_A_k beta_S_nh
        beta_S_h gamma gamma_hosp nat_death death_rate_S death_rate_hosp
        E_to_I_forA E_to_I_forS return_rate sd test_rate_inc t_vac
        (1, 1)).R +
      (deriv_body 0 ⟨0, 0, 0, 0, 0, 0, 0, 0⟩ N beta_A_uk beta_A_k beta_S_nh
        beta_S_h gamma gamma_hosp nat_death death_rate_S death_rate_hosp
        E_to_I_forA E_to_I_forS return_rate sd test_rate_inc t_vac
        (1, 1)).D = nat_birth * (N - 0)) ∧
    ((deriv_body 0 ⟨0, 0, 0, 0, 0, 0, 0, 0⟩ N beta_A_uk beta_A_k beta_S_nh
        beta_S_h gamma gamma_hosp nat_death death_rate_S death_rate_hosp
        E_to_I_forA E_to_I_forS return_rate sd test_rate_inc t_vac
        (1, 1)).S +
      (deriv_body 0 ⟨0, 0, 0, 0, 0, 0, 0, 0⟩ N beta_A_uk beta_A_k beta_S_nh
        beta_S_h gamma gamma_hosp nat_death death_rate_S death_rate_hosp
        E_to_I_forA E_to_I_forS return_rate sd test_rate_inc t_vac
        (1, 1)).E +
      (deriv_body 0 ⟨0, 0, 0, 0, 0, 0, 0, 0⟩ N beta_A_uk beta_A_k beta_S_nh
        beta_S_h gamma gamma_hosp nat_death death_rate_S death_rate_hosp
        E_to_I_forA E_to_I_forS return_rate sd test_rate_inc t_vac
        (1, 1)).Ia_uk +
      (deriv_body 0 ⟨0, 0, 0, 0, 0, 0, 0, 0⟩ N beta_A_uk beta_A_k beta_S_nh
        beta_S_h gamma gamma_hosp nat_death death_rate_S death_rate_hosp
        E_to_I_forA E_to_I_forS return_rate sd test_rate_inc t_vac
        (1, 1)).Ia_k +
      (deriv_body 0 ⟨0, 0, 0, 0, 0, 0, 0, 0⟩ N beta_A_uk beta_A_k beta_S_nh
        beta_S_h gamma gamma_hosp nat_death death_rate_S death_rate_hosp
        E_to_I_forA E_to_I_forS return_rate sd test_rate_inc t_vac
        (1, 1)).Is_nh +
      (deriv_body 0 ⟨0, 0, 0, 0, 0, 0, 0, 0⟩ N beta_A_uk beta_A_k beta_S_nh
        beta_S_h gamma gamma_hosp nat_death death_rate_S death_rate_hosp
        E_to_I_forA E_to_I_forS return_rate sd test_rate_inc t_vac
        (1, 1)).Is_h +
      (deriv_body 0 ⟨0, 0, 0, 0, 0, 0, 0, 0⟩ N beta_A_uk beta_A_k beta_S_nh
        beta_S_h gamma gamma_hosp nat_death death_rate_S death_rate_hosp
        E_to_I_forA E_to_I_forS return_rate sd test_rate_inc t_vac
        (1, 1)).R +
      (deriv_body 0 ⟨0, 0, 0, 0, 0, 0, 0, 0⟩ N beta_A_uk beta_A_k beta_S_nh
        beta_S_h gamma gamma_hosp nat_death death_rate_S death_rate_hosp
        E_to_I_forA E_to_I_forS return_rate sd test_rate_inc t_vac
        (1, 1)).D = 0 ↔ N = 0) :=
  deriv_sum_below_capacity 0 ⟨0, 0, 0, 0, 0, 0, 0, 0⟩ _ N beta_A_uk beta_A_k
    beta_S_nh beta_S_h gamma gamma_hosp nat_death death_rate_S
    death_rate_hosp E_to_I_forA E_to_I_forS return_rate sd test_rate_inc
    t_vac health_capacity le_rfl le_rfl le_rfl le_rfl le_rfl le_rfl le_rfl
    le_rfl (by norm_num [health_capacity])
    (deriv_of_lt (by norm_num [health_capacity]))

/-- The configuration the script assembles before integrating: the rate
constants of lines 100-124 together with the integration horizon and sample
count of lines 123 and 165 (`t_span=(0,365)`, 365 points of `t_eval`). -/
structure Config where
  beta_S_h : ℚ
  beta_S_nh : ℚ
  beta_A_uk : ℚ
  beta_A_k : ℚ
  gamma : ℚ
  gamma_hosp : ℚ
  death_rate_S : ℚ
  death_rate_hosp : ℚ
  nat_death : ℚ
  nat_birth : ℚ
  E_to_I_forS : ℚ
  E_to_I_forA : ℚ
  return_rate : ℚ
  sd : ℚ
  v_eff : ℚ
  test_rate_inc : ℚ
  hosp : ℚ
  health_capacity : ℚ
  t_vac : ℚ
  horizon : ℚ
  sample_count : ℤ
deriving DecidableEq

/-- Outcome of setting up a configuration before integration. -/
inductive ConstructionResult where
  | proceed (cfg : Config)
  | configError
deriving DecidableEq

/-- Construction as the script performs it (lines 89-165 of
`working_bubble.py`): the parameter constants are bound and `solve_ivp` is
invoked unconditionally — no statement between them inspects or rejects any
value, so every configuration proceeds to integration. -/
def construct (cfg : Config) : ConstructionResult :=
  ConstructionResult.proceed cfg

/-- Validity of a configuration in the words of the spec's error-handling
section: no negative rate, positive capacity, positive horizon, positive
sample count. -/
def validConfig (cfg : Config) : Prop :=
  0 ≤ cfg.beta_S_h ∧ 0 ≤ cfg.beta_S_nh ∧ 0 ≤ cfg.beta_A_uk ∧
  0 ≤ cfg.beta_A_k ∧ 0 ≤ cfg.gamma ∧ 0 ≤ cfg.gamma_hosp ∧
  0 ≤ cfg.death_rate_S ∧ 0 ≤ cfg.death_rate_hosp ∧ 0 ≤ cfg.nat_death ∧
  0 ≤ cfg.nat_birth ∧ 0 ≤ cfg.E_to_I_forS ∧ 0 ≤ cfg.E_to_I_forA ∧
  0 ≤ cfg.return_rate ∧ 0 ≤ cfg.sd ∧ 0 ≤ cfg.v_eff ∧
  0 ≤ cfg.test_rate_inc ∧ 0 ≤ cfg.hosp ∧ 0 < cfg.health_capacity ∧
  0 < cfg.horizon ∧ 0 < cfg.sample_count

/-- The script's reference configuration (lines 100-124, 165). -/
def refConfig : Config :=
  { beta_S_h := beta_S_h, beta_S_nh := beta_S_nh, beta_A_uk := beta_A_uk,
    beta_A_k := beta_A_k, gamma := gamma, gamma_hosp := gamma_hosp,
    death_rate_S := death_rate_S, death_rate_hosp := death_rate_hosp,
    nat_death := nat_death, nat_birth := nat_birth,
    E_to_I_forS := E_to_I_forS, E_to_I_forA := E_to_I_forA,
    return_rate := return_rate, sd := sd, v_eff := v_eff,
    test_rate_inc := test_rate_inc, hosp := hosp,
    health_capacity := health_capacity, t_vac := t_vac, horizon := 365,
    sample_count := 365 }

/-- A configuration with a negative contact rate. -/
def badConfig : Config :=
  { refConfig with beta_S_nh := -1/10 }

/-- Claim C8, counterexample: the configuration with a negative contact
rate `beta_S_nh = -0.1` is invalid, yet construction does not reject it
with a configuration error — integration is still attempted. -/
theorem construct_no_validation_cex :
    ¬ validConfig badConfig ∧
    construct badConfig ≠ ConstructionResult.configError := by
  constructor
  · intro h
    have h2 := h.2.1
    norm_num [badConfig, refConfig] at h2
  · intro h
    cases h

/-- Claim C8, amended: the code performs no configuration validation at all:
every configuration, including every invalid one, is accepted by
construction and integration is attempted unconditionally. -/
theorem construct_never_rejects (cfg : Config) (h : ¬ validConfig cfg) :
    construct cfg = ConstructionResult.proceed cfg := rfl

/-- Witness for the amended C8 at the negative-rate configuration. -/
theorem construct_never_rejects_witness :
    construct badConfig = ConstructionResult.proceed badConfig :=
  construct_never_rejects badConfig
    (fun h => by
      have h2 := h.2.1
      norm_num [badConfig, refConfig] at h2)

end WorkingBubble

namespace ReactionKinetics

/-- The concentration vector `[vec_A, vec_B, vec_C]` of
`sliders_reaction_kinetics.py` (line 31). -/
structure Conc where
  vec_A : ℚ
  vec_B : ℚ
  vec_C : ℚ

/-- The parameter vector `[O_AB, O_BC, k_AB, k_BC]` (line 32).  The reaction
orders are the integer slider values (1 to 5), modelled as naturals. -/
structure Params where
  O_AB : ℕ
  O_BC : ℕ
  k_AB : ℚ
  k_BC : ℚ

/-- The reaction-kinetics derivative (lines 20-38):
`[-k_AB*A^O_AB, k_AB*A^O_AB - k_BC*B^O_BC, k_BC*B^O_BC]`. -/
def dconc_dt (conc : Conc) (t : ℚ) (params : Params) : Conc :=
  { vec_A := -params.k_AB * conc.vec_A ^ params.O_AB,
    vec_B := params.k_AB * conc.vec_A ^ params.O_AB
        - params.k_BC * conc.vec_B ^ params.O_BC,
    vec_C := params.k_BC * conc.vec_B ^ params.O_BC }

/-- Claim C10: for every concentration vector, time and parameter vector,
the three components of `dconc_dt` sum to exactly zero, so the total
concentration A + B + C is conserved by the sequential-reaction model. -/
theorem dconc_dt_conserves (conc : Conc) (t : ℚ) (params : Params) :
    (dconc_dt conc t params).vec_A + (dconc_dt conc t params).vec_B +
      (dconc_dt conc t params).vec_C = 0 := by
  simp only [dconc_dt]
  ring

end ReactionKinetics
